import Mathlib

/-!
Verification development for the logzio-go log shipper
(`logziosender.go`).  The Go code is shallowly embedded: byte payloads
become `List Nat`, the queue becomes an explicit list of payloads, and
each stateful Go method becomes a function from sender state to sender
state.  External effects (the disk-usage probe, the HTTP response
status, a possible storage error of `Enqueue`) are passed in as explicit
parameters, mirroring exactly the branch structure of the source.
-/

set_option maxRecDepth 40000

namespace Logzio

/-- A byte payload (Go `[]byte`); each element is one byte. -/
abbrev Bytes := List Nat

/-- Go constant `maxSize = 3 * 1024 * 1024` (logziosender.go). -/
def maxSize : Nat := 3 * 1024 * 1024

/-- Go constant `sendRetries = 4`. -/
def sendRetries : Nat := 4

/-- Go constant `httpError = -1`, the transport-error sentinel. -/
def httpError : Int := -1

/-- Go constant `defaultHost`. -/
def defaultHost : String := "https://listener.logz.io:8071"

/-- Go constant `defaultQueueMaxLength = 9 * 1024 * 1024`. -/
def defaultQueueMaxLength : Nat := 9 * 1024 * 1024

/-- Go constant `defaultMaxLogCount = 500000`. -/
def defaultMaxLogCount : Nat := 500000

/-- The newline byte appended after each batched item. -/
def newline : Nat := 10

/-- Modelled from the spec: the queue implementation (package
`inMemoryQueue`, and the durable `goque` queue, neither included in the
sources here).  Both are FIFOs of byte payloads: `Enqueue` appends at
the tail, `Dequeue` removes the head and reports emptiness by a `none`
item.  For the in-memory variant `Length` returns the sum of the stored
payload sizes; the sender only ever uses `Length` either against
`inMemoryCapacity` (in-memory variant) or as a `Length > 0` non-empty
test. -/
structure MemQueue where
  items : List Bytes
deriving DecidableEq, Repr

/-- Modelled from the spec: `Length()` of the in-memory queue is the sum
of the stored payload byte sizes. -/
def MemQueue.Length (q : MemQueue) : Nat :=
  (q.items.map List.length).sum

/-- Modelled from the spec: `Enqueue` appends a payload at the tail. -/
def MemQueue.Enqueue (q : MemQueue) (v : Bytes) : MemQueue :=
  ⟨q.items ++ [v]⟩

/-- Modelled from the spec: `Dequeue` removes and returns the head item;
an empty queue returns no item (the Go code receives a `nil` item and an
"empty" error). -/
def MemQueue.Dequeue (q : MemQueue) : Option Bytes × MemQueue :=
  match q.items with
  | [] => (none, q)
  | v :: rest => (some v, ⟨rest⟩)

/-- External outcome of one disk-usage probe (`disk.Usage(l.dir)` in
`isEnoughDiskSpace`): the probe may fail, or report a usage above the
threshold, or a usage not above it.  The comparison with
`diskThreshold` happens outside the embedded code, so the oracle
directly carries its outcome. -/
inductive ProbeResult
  | fail
  | over
  | under
deriving DecidableEq, Repr

/-- State of a `LogzioSender` (the fields of the Go struct that the
embedded operations read or write; timers, mutexes and the HTTP client
are external). `bufData` is the contents of `l.buf`. -/
structure LogzioSender where
  queue : MemQueue
  bufData : Bytes
  token : String
  url : String
  checkDiskSpace : Bool
  droppedLogs : Nat
  inMemoryQueue : Bool
  inMemoryCapacity : Nat
  logCountLimit : Nat
  compress : Bool
deriving DecidableEq, Repr

/-- `fmt.Sprintf("%s/?token=%s", base, token)` — the URL rewrite used by
both `New` and `SetUrl`. -/
def tokenUrl (base token : String) : String :=
  base ++ "/?token=" ++ token

/-- The loop body of `dequeueUpToMaxBatchSize` (logziosender.go:387).
Arguments are the remaining queue items, the running `bufSize`, and the
current buffer contents.  Result: (`bufSize`, buffer contents, remaining
queue).  Mirrors the Go loop exactly: while `bufSize < maxSize`, dequeue
an item; stop on an empty queue; if `len(item.Value)+bufSize+1 >
maxSize` break — note the item was already dequeued, so it is neither
written nor put back; otherwise add `len(item.Value)` to `bufSize` and
write the value followed by a newline into the buffer.  (The `err`
variables in the Go loop are shadowed by `:=`, so the outer `err ==
nil` test never fires.) -/
def dequeueLoop : List Bytes → Nat → Bytes → Nat × Bytes × List Bytes
  | items, bufSize, buf =>
    if bufSize < maxSize then
      match items with
      | [] => (bufSize, buf, [])
      | v :: rest =>
        if v.length + bufSize + 1 > maxSize then
          (bufSize, buf, rest)
        else
          dequeueLoop rest (bufSize + v.length) (buf ++ v ++ [newline])
    else (bufSize, buf, items)

/-- `dequeueUpToMaxBatchSize` (logziosender.go:387): run the batching
loop against the sender's queue and buffer, returning the `bufSize`
count and the updated sender. -/
def LogzioSender.dequeueUpToMaxBatchSize (l : LogzioSender) :
    Nat × LogzioSender :=
  let r := dequeueLoop l.queue.items 0 l.bufData
  (r.1, { l with bufData := r.2.1, queue := ⟨r.2.2⟩ })

/-- `shouldRetry` (logziosender.go:325): the Go `switch` over the status
code; `400`, `404`, `401`, `403` and `200` set `retry = false`, every
other status keeps the initial `retry = true`. -/
def shouldRetry (statusCode : Int) : Bool :=
  if statusCode = 400 then false
  else if statusCode = 404 then false
  else if statusCode = 401 then false
  else if statusCode = 403 then false
  else if statusCode = 200 then false
  else true

/-- `isEnoughDiskSpace` (logziosender.go:216): when `checkDiskSpace` is
set, a failed probe latches `checkDiskSpace` to `false` and rejects
(without touching `droppedLogs`); a usage above the threshold increments
`droppedLogs` and rejects; otherwise accept.  With `checkDiskSpace`
unset, always accept.  Returns (accept?, updated sender). -/
def LogzioSender.isEnoughDiskSpace (l : LogzioSender) (probe : ProbeResult) :
    Bool × LogzioSender :=
  if l.checkDiskSpace then
    match probe with
    | .fail => (false, { l with checkDiskSpace := false })
    | .over => (false, { l with droppedLogs := l.droppedLogs + 1 })
    | .under => (true, l)
  else (true, l)

/-- `isEnoughMemory` (logziosender.go:241): reject (and increment
`droppedLogs`) when `Length() + dataSize >= inMemoryCapacity`. -/
def LogzioSender.isEnoughMemory (l : LogzioSender) (dataSize : Nat) :
    Bool × LogzioSender :=
  if l.queue.Length + dataSize ≥ l.inMemoryCapacity then
    (false, { l with droppedLogs := l.droppedLogs + 1 })
  else (true, l)

/-- Result of one `Send` call: the updated sender, whether the payload
was enqueued, the returned Go error (`none` = `nil`), and whether the
disk-admission check `isEnoughDiskSpace` was invoked. -/
structure SendResult where
  sender : LogzioSender
  enqueued : Bool
  err : Option Unit
  diskChecked : Bool
deriving DecidableEq, Repr

/-- `Send` (logziosender.go:253).  `probe` is the external outcome of a
disk probe, `enqErr` a possible storage error of the queue `Enqueue`
(only the durable queue can produce one; it is surfaced as `Send`'s
return value).  The Go `&&` short-circuits, so `isEnoughDiskSpace` runs
only when `!l.inMemoryQueue`; an admission reject falls through to
`return nil`. -/
def LogzioSender.Send (l : LogzioSender) (payload : Bytes)
    (probe : ProbeResult) (enqErr : Option Unit) : SendResult :=
  if !l.inMemoryQueue then
    let r := l.isEnoughDiskSpace probe
    if r.1 then
      ⟨{ r.2 with queue := r.2.queue.Enqueue payload }, true, enqErr, true⟩
    else
      ⟨r.2, false, none, true⟩
  else
    let r := l.isEnoughMemory payload.length
    if r.1 then
      ⟨{ r.2 with queue := r.2.queue.Enqueue payload }, true, enqErr, false⟩
    else
      ⟨r.2, false, none, false⟩

/-- `Write` (logziosender.go:439): `return len(p), l.Send(p)`. -/
def LogzioSender.Write (l : LogzioSender) (p : Bytes)
    (probe : ProbeResult) (enqErr : Option Unit) :
    Nat × Option Unit × LogzioSender :=
  (p.length, (l.Send p probe enqErr).err, (l.Send p probe enqErr).sender)

/-- The state effect of `makeHttpRequest` (logziosender.go:274) given
the response status (or `-1` on transport error): on status `200`,
`droppedLogs` is reset to `0`; otherwise the state is unchanged.  The
returned status is the argument itself. -/
def makeHttpRequestEffect (l : LogzioSender) (status : Int) : LogzioSender :=
  if status = 200 then { l with droppedLogs := 0 } else l

/-- `requeue` (logziosender.go:421): `l.Send(l.buf.Bytes())`; the error
is only logged, the state effect is that of `Send`. -/
def LogzioSender.requeue (l : LogzioSender) (probe : ProbeResult) :
    LogzioSender :=
  (l.Send l.bufData probe none).sender

/-- The retry loop inside `Drain` (logziosender.go:364–381), for one
batch.  `oracle attempt` is the status of the POST made at that attempt
(`tryToSendLogs`); `remaining` counts the attempts left
(`sendRetries - attempt`).  Each attempt applies the
`makeHttpRequestEffect`.  On a non-retriable status: `reDrain = true`
and break.  On a retriable status at the last attempt
(`attempt == sendRetries - 1`): `requeue` and `reDrain = false`.
Returns (state, `reDrain`, number of attempts performed). -/
def retryAttempts (oracle : Nat → Int) (probe : ProbeResult) :
    Nat → Nat → LogzioSender → LogzioSender × Bool × Nat
  | 0, _, l => (l, true, 0)
  | remaining + 1, attempt, l =>
    let status := oracle attempt
    let l1 := makeHttpRequestEffect l status
    if shouldRetry status then
      if attempt = sendRetries - 1 then
        (l1.requeue probe, false, 1)
      else
        let r := retryAttempts oracle probe remaining (attempt + 1) l1
        (r.1, r.2.1, r.2.2 + 1)
    else (l1, true, 1)

/-- The outer loop of `Drain` (logziosender.go:359–383).  `oracle batch
attempt` is the status of the POST for the given batch and attempt;
`fuel` bounds the iteration count (each iteration on a non-empty queue
removes at least one item, so `queue.items.length + 1` is enough).
While `queue.Length > 0 && reDrain`: batch with
`dequeueUpToMaxBatchSize`; if the batch is non-empty run the retry
loop, and continue only when it left `reDrain = true`. -/
def drainLoop (oracle : Nat → Nat → Int) (probe : ProbeResult) :
    Nat → Nat → LogzioSender → LogzioSender
  | 0, _, l => l
  | fuel + 1, batch, l =>
    if l.queue.Length > 0 then
      let r := l.dequeueUpToMaxBatchSize
      if r.1 > 0 then
        let s := retryAttempts (oracle batch) probe sendRetries 0 r.2
        if s.2.1 then drainLoop oracle probe fuel (batch + 1) s.1 else s.1
      else drainLoop oracle probe fuel (batch + 1) r.2
    else l

/-- `Drain` (logziosender.go:347): reset the buffer, then run the outer
loop (the mutex/`draining` flag are concurrency machinery outside this
sequential model). -/
def LogzioSender.Drain (l : LogzioSender) (oracle : Nat → Nat → Int)
    (probe : ProbeResult) : LogzioSender :=
  drainLoop oracle probe (l.queue.items.length + 1) 0 { l with bufData := [] }

/-- The construction-time options of `New` that the embedded state
carries (each constructor mirrors one `SenderOptionFunc`). -/
inductive Opt
  | setUrl (u : String)
  | setInMemoryQueue (b : Bool)
  | setCheckDiskSpace (b : Bool)
  | setinMemoryCapacity (n : Nat)
  | setlogCountLimit (n : Nat)
  | setCompress (b : Bool)
deriving DecidableEq, Repr

/-- Application of one option (logziosender.go:137–214). `SetUrl`
rewrites the URL to `"<arg>/?token=<l.token>"` using the sender's
token. -/
def applyOpt (l : LogzioSender) : Opt → LogzioSender
  | .setUrl u => { l with url := tokenUrl u l.token }
  | .setInMemoryQueue b => { l with inMemoryQueue := b }
  | .setCheckDiskSpace b => { l with checkDiskSpace := b }
  | .setinMemoryCapacity n => { l with inMemoryCapacity := n }
  | .setlogCountLimit n => { l with logCountLimit := n }
  | .setCompress b => { l with compress := b }

/-- The defaults set at the top of `New` (logziosender.go:82–98) before
the options run: the URL is `"<defaultHost>/?token=<token>"`,
`checkDiskSpace = true`, `compress = true`, `droppedLogs = 0`, the
disk queue is selected, with the default capacity and log-count
limits. -/
def baseSender (token : String) : LogzioSender where
  queue := ⟨[]⟩
  bufData := []
  token := token
  url := tokenUrl defaultHost token
  checkDiskSpace := true
  droppedLogs := 0
  inMemoryQueue := false
  inMemoryCapacity := defaultQueueMaxLength
  logCountLimit := defaultMaxLogCount
  compress := true

/-- `New` (logziosender.go:81): apply the options in order to the
defaults; afterwards, if `inMemoryQueue` was selected, force
`checkDiskSpace := false` (logziosender.go:118–122).  The queue starts
empty in both variants. -/
def New (token : String) (options : List Opt) : LogzioSender :=
  let l := options.foldl applyOpt (baseSender token)
  if l.inMemoryQueue then { l with checkDiskSpace := false } else l

/-- An in-memory-variant sender state as produced by `New` with
`SetInMemoryQueue(true)` (so `checkDiskSpace` is forced off), holding
the given queue contents and capacity. -/
def mkMemSender (items : List Bytes) (cap : Nat) : LogzioSender where
  queue := ⟨items⟩
  bufData := []
  token := "t"
  url := "u"
  checkDiskSpace := false
  droppedLogs := 0
  inMemoryQueue := true
  inMemoryCapacity := cap
  logCountLimit := defaultMaxLogCount
  compress := true

/-- Iterate `Drain` against an endpoint that always fails at the
transport level (every attempt returns the `httpError` sentinel). -/
def drainIterate : Nat → LogzioSender → LogzioSender
  | 0, l => l
  | k + 1, l => drainIterate k (l.Drain (fun _ _ => httpError) .under)

/-! Theorems. -/

/-- Claim C3: `shouldRetry(status)` returns `false` exactly for the
statuses 200, 400, 401, 403 and 404, and `true` for every other integer
status (in particular for the transport-error sentinel `-1` and every
5xx code, none of which is in that set). -/
theorem C3_shouldRetry_characterization (s : Int) :
    shouldRetry s = false ↔
      s = 200 ∨ s = 400 ∨ s = 401 ∨ s = 403 ∨ s = 404 := by
  unfold shouldRetry
  split_ifs with h1 h2 h3 h4 h5 <;> simp_all

/-- Claim C8: `Write(p)` returns `n = len(p)` unconditionally — also
when the underlying `Send(p)` returns a non-nil error — and the
returned error is exactly the one returned by `Send(p)`. -/
theorem C8_write_returns_len (l : LogzioSender) (p : Bytes)
    (probe : ProbeResult) (e : Option Unit) :
    (l.Write p probe e).1 = p.length ∧
      (l.Write p probe e).2.1 = (l.Send p probe e).err :=
  ⟨rfl, rfl⟩

/-- Claim C7 (evaluation at the failing input): with token `"token"`
and `SetUrl("http://localhost:12345")` the final URL is
`"http://localhost:12345/?token=token"` as the claim states; but with
an empty token the code still rewrites the URL to
`"http://localhost:12345/?token="`, not the bare
`"http://localhost:12345"` that the claim (and the repository's own
`TestLogzioSender_SetUrl`) expects. -/
theorem C7_url_composition_eval :
    (New "token" [Opt.setUrl "http://localhost:12345"]).url
        = "http://localhost:12345/?token=token"
    ∧ (New "" [Opt.setUrl "http://localhost:12345"]).url
        = "http://localhost:12345/?token="
    ∧ "http://localhost:12345/?token=" ≠ "http://localhost:12345" :=
  ⟨rfl, rfl, by decide⟩

/-- Claim C10: the constructor forces `checkDiskSpace := false`
whenever `inMemoryQueue` is selected, after all options (including any
`SetCheckDiskSpace(true)`) are applied; and `Send` on an in-memory
sender never invokes the disk-admission check. -/
theorem C10_inMemory_no_disk_check :
    (∀ (token : String) (opts : List Opt),
        (New token opts).inMemoryQueue = true →
          (New token opts).checkDiskSpace = false)
    ∧ (∀ (l : LogzioSender) (p : Bytes) (probe : ProbeResult)
          (e : Option Unit),
        l.inMemoryQueue = true → (l.Send p probe e).diskChecked = false) := by
  constructor
  · intro token opts h
    unfold New at h ⊢
    by_cases hq : (opts.foldl applyOpt (baseSender token)).inMemoryQueue
    · simp [hq]
    · simp [hq] at h
  · intro l p probe e h
    unfold LogzioSender.Send
    rw [h]
    simp only [Bool.not_true, Bool.false_eq_true, if_false]
    split <;> rfl

/-- Claim C10 witness: a construction passing `SetInMemoryQueue(true)`
then `SetCheckDiskSpace(true)` still ends with `checkDiskSpace =
false`, and a concrete in-memory `Send` does not consult the disk
check. -/
theorem C10_inMemory_no_disk_check_witness :
    (New "t" [Opt.setInMemoryQueue true, Opt.setCheckDiskSpace true]).inMemoryQueue
        = true
    ∧ (New "t" [Opt.setInMemoryQueue true, Opt.setCheckDiskSpace true]).checkDiskSpace
        = false
    ∧ (mkMemSender [] 500).inMemoryQueue = true
    ∧ ((mkMemSender [] 500).Send [0] .under none).diskChecked = false :=
  ⟨by decide,
   C10_inMemory_no_disk_check.1 "t"
     [Opt.setInMemoryQueue true, Opt.setCheckDiskSpace true] (by decide),
   by decide,
   C10_inMemory_no_disk_check.2 (mkMemSender [] 500) [0] .under none
     (by decide)⟩

/-- Claim C5 counterexample: a `Send` on the disk-variant sender whose
disk probe fails is rejected (nothing enqueued, queue unchanged), yet
`droppedLogs` stays at 0 — it does not increase by exactly 1 as the
claim states (`isEnoughDiskSpace` only latches `checkDiskSpace` off on
a probe error, without touching the counter). -/
theorem C5_counterexample_probe_fail :
    ((baseSender "t").Send [0] .fail none).enqueued = false
    ∧ ((baseSender "t").Send [0] .fail none).sender.queue.items
        = (baseSender "t").queue.items
    ∧ ((baseSender "t").Send [0] .fail none).sender.droppedLogs = 0
    ∧ ¬ ((baseSender "t").Send [0] .fail none).sender.droppedLogs
          = (baseSender "t").droppedLogs + 1 := by
  refine ⟨rfl, rfl, rfl, by decide⟩

/-- Claim C5 (amended): every `Send` rejected by admission leaves the
queue unchanged, returns no error, and increments `droppedLogs` by
exactly 1 — except when the rejection is caused by a failed disk probe,
in which case `droppedLogs` is unchanged and `checkDiskSpace` latches
to `false`; and every HTTP response with status 200 resets
`droppedLogs` to zero. -/
theorem C5_admission_effects (l : LogzioSender) (p : Bytes)
    (probe : ProbeResult) (e : Option Unit)
    (h : (l.Send p probe e).enqueued = false) :
    (l.Send p probe e).sender.queue.items = l.queue.items
    ∧ (l.Send p probe e).err = none
    ∧ ((l.inMemoryQueue = false ∧ l.checkDiskSpace = true ∧ probe = .fail
          ∧ (l.Send p probe e).sender.droppedLogs = l.droppedLogs
          ∧ (l.Send p probe e).sender.checkDiskSpace = false)
        ∨ (l.Send p probe e).sender.droppedLogs = l.droppedLogs + 1)
    ∧ (∀ l' : LogzioSender, (makeHttpRequestEffect l' 200).droppedLogs = 0) := by
  unfold LogzioSender.Send LogzioSender.isEnoughDiskSpace
    LogzioSender.isEnoughMemory at h ⊢
  by_cases hq : l.inMemoryQueue
  · simp only [hq, Bool.not_true, Bool.false_eq_true, if_false] at h ⊢
    by_cases hm : l.queue.Length + p.length ≥ l.inMemoryCapacity
    · simp [hm, makeHttpRequestEffect]
    · simp [hm] at h
  · simp only [hq, Bool.not_false, if_true] at h ⊢
    by_cases hc : l.checkDiskSpace
    · cases probe with
      | fail => simp [hc, hq, makeHttpRequestEffect]
      | over => simp [hc, makeHttpRequestEffect]
      | under => simp [hc] at h
    · simp [hc] at h

/-- Claim C5 witness: a concrete in-memory `Send` over capacity is
rejected, leaves the queue unchanged, and bumps `droppedLogs` from 0 to
1 (taking the non-probe branch of the amended statement). -/
theorem C5_admission_effects_witness :
    ((mkMemSender [] 0).Send [0] .under none).enqueued = false
    ∧ (((mkMemSender [] 0).Send [0] .under none).sender.queue.items
          = (mkMemSender [] 0).queue.items
        ∧ ((mkMemSender [] 0).Send [0] .under none).err = none
        ∧ (((mkMemSender [] 0).inMemoryQueue = false
              ∧ (mkMemSender [] 0).checkDiskSpace = true
              ∧ ProbeResult.under = ProbeResult.fail
              ∧ ((mkMemSender [] 0).Send [0] .under none).sender.droppedLogs
                  = (mkMemSender [] 0).droppedLogs
              ∧ ((mkMemSender [] 0).Send [0] .under none).sender.checkDiskSpace
                  = false)
            ∨ ((mkMemSender [] 0).Send [0] .under none).sender.droppedLogs
                = (mkMemSender [] 0).droppedLogs + 1)
        ∧ (∀ l' : LogzioSender,
            (makeHttpRequestEffect l' 200).droppedLogs = 0)) :=
  ⟨by decide, C5_admission_effects (mkMemSender [] 0) [0] .under none (by decide)⟩

/-- Claim C6: for the in-memory variant, `Send(payload)` is rejected —
not enqueued, `droppedLogs` incremented, `nil` returned — exactly when
`Length() + len(payload) >= inMemoryCapacity`; and the concrete
capacity-500 scenario: a 1000-byte `Send` is rejected leaving the queue
empty, a 200-byte `Send` is then accepted, a 400-byte `Send` is
rejected, and the queue ends with exactly one 200-byte item. -/
theorem C6_inMemory_admission :
    (∀ (l : LogzioSender) (p : Bytes) (probe : ProbeResult) (e : Option Unit),
        l.inMemoryQueue = true →
          (((l.Send p probe e).enqueued = false ↔
              l.queue.Length + p.length ≥ l.inMemoryCapacity)
            ∧ ((l.Send p probe e).enqueued = false →
                (l.Send p probe e).sender.queue.items = l.queue.items
                ∧ (l.Send p probe e).sender.droppedLogs = l.droppedLogs + 1
                ∧ (l.Send p probe e).err = none)))
    ∧ ((mkMemSender [] 500).Send (List.replicate 1000 0) .under none).enqueued
        = false
    ∧ ((mkMemSender [] 500).Send (List.replicate 1000 0) .under
          none).sender.queue.items = []
    ∧ (((mkMemSender [] 500).Send (List.replicate 1000 0) .under
          none).sender.Send (List.replicate 200 0) .under none).enqueued = true
    ∧ ((((mkMemSender [] 500).Send (List.replicate 1000 0) .under
          none).sender.Send (List.replicate 200 0) .under none).sender.Send
            (List.replicate 400 0) .under none).enqueued = false
    ∧ ((((mkMemSender [] 500).Send (List.replicate 1000 0) .under
          none).sender.Send (List.replicate 200 0) .under none).sender.Send
            (List.replicate 400 0) .under none).sender.queue.items
        = [List.replicate 200 0] := by
  refine ⟨?_, by decide, by decide, by decide, by decide, by decide⟩
  intro l p probe e h
  unfold LogzioSender.Send LogzioSender.isEnoughMemory
  simp only [h, Bool.not_true, Bool.false_eq_true, if_false]
  by_cases hm : l.queue.Length + p.length ≥ l.inMemoryCapacity
  · simp [hm]
  · simp [hm]

/-- Claim C6 witness: the iff instantiated at the capacity-500 sender
and the 1000-byte payload. -/
theorem C6_inMemory_admission_witness :
    (mkMemSender [] 500).inMemoryQueue = true
    ∧ ((((mkMemSender [] 500).Send (List.replicate 1000 0) .under
            none).enqueued = false ↔
          (mkMemSender [] 500).queue.Length + (List.replicate 1000 0).length
            ≥ (mkMemSender [] 500).inMemoryCapacity)
        ∧ (((mkMemSender [] 500).Send (List.replicate 1000 0) .under
              none).enqueued = false →
            ((mkMemSender [] 500).Send (List.replicate 1000 0) .under
                none).sender.queue.items = (mkMemSender [] 500).queue.items
            ∧ ((mkMemSender [] 500).Send (List.replicate 1000 0) .under
                none).sender.droppedLogs = (mkMemSender [] 500).droppedLogs + 1
            ∧ ((mkMemSender [] 500).Send (List.replicate 1000 0) .under
                none).err = none)) :=
  ⟨by decide,
   C6_inMemory_admission.1 (mkMemSender [] 500) (List.replicate 1000 0) .under
     none (by decide)⟩

/-- Helper: the retry loop never performs more attempts than it has
remaining slots. -/
lemma retryAttempts_count_le (oracle : Nat → Int) (probe : ProbeResult) :
    ∀ (remaining attempt : Nat) (l : LogzioSender),
      (retryAttempts oracle probe remaining attempt l).2.2 ≤ remaining := by
  intro remaining
  induction remaining with
  | zero => intro attempt l; simp [retryAttempts]
  | succ n ih =>
    intro attempt l
    simp only [retryAttempts]
    split
    · split
      · simp
      · simpa using Nat.succ_le_succ (ih (attempt + 1) _)
    · simp

/-- Claim C4: during `Drain` a non-empty batch is attempted at most
`sendRetries = 4` times; and in the concrete scenario — `Send("blah")`
followed by one `Drain` against an endpoint where every attempt fails
at the transport level — the batch is attempted exactly 4 times, the
whole buffer `"blah\n"` is requeued as one item, the outer loop stops
(`reDrain = false`), a first `Dequeue` returns `"blah\n"` and a second
`Dequeue` reports empty. -/
theorem C4_drain_retry_requeue :
    (∀ (oracle : Nat → Int) (probe : ProbeResult) (attempt : Nat)
        (l : LogzioSender),
        (retryAttempts oracle probe sendRetries attempt l).2.2 ≤ sendRetries)
    ∧ ((mkMemSender [[98, 108, 97, 104]] (40 * 1024 * 1024)).Drain
          (fun _ _ => httpError) .under).queue.items = [[98, 108, 97, 104, 10]]
    ∧ ((mkMemSender [[98, 108, 97, 104]] (40 * 1024 * 1024)).Drain
          (fun _ _ => httpError) .under).queue.Dequeue.1
        = some [98, 108, 97, 104, 10]
    ∧ ((mkMemSender [[98, 108, 97, 104]] (40 * 1024 * 1024)).Drain
          (fun _ _ => httpError) .under).queue.Dequeue.2.Dequeue.1 = none
    ∧ (retryAttempts (fun _ => httpError) .under sendRetries 0
          ((mkMemSender [[98, 108, 97, 104]]
              (40 * 1024 * 1024)).dequeueUpToMaxBatchSize).2).2
        = (false, 4) := by
  refine ⟨?_, by decide, by decide, by decide, by decide⟩
  intro oracle probe attempt l
  exact retryAttempts_count_le oracle probe sendRetries attempt l

/-- Helper: the overflow break of the batching loop — the head item is
dequeued, nothing is written, and the loop returns with the tail as the
remaining queue. -/
lemma dequeueLoop_overflow (v : Bytes) (rest : List Bytes) (bufSize : Nat)
    (buf : Bytes) (h1 : bufSize < maxSize)
    (h2 : v.length + bufSize + 1 > maxSize) :
    dequeueLoop (v :: rest) bufSize buf = (bufSize, buf, rest) := by
  rw [dequeueLoop]
  simp [h1, h2]

/-- Helper: the success step of the batching loop — an item that fits
is appended to the buffer followed by a newline, and the loop
continues. -/
lemma dequeueLoop_step (v : Bytes) (rest : List Bytes) (bufSize : Nat)
    (buf : Bytes) (h1 : bufSize < maxSize)
    (h2 : ¬ v.length + bufSize + 1 > maxSize) :
    dequeueLoop (v :: rest) bufSize buf
      = dequeueLoop rest (bufSize + v.length) (buf ++ v ++ [newline]) := by
  rw [dequeueLoop]
  simp [h1, h2]

/-- Helper: the batching loop on an empty queue returns immediately. -/
lemma dequeueLoop_nil (bufSize : Nat) (buf : Bytes) :
    dequeueLoop [] bufSize buf = (bufSize, buf, []) := by
  rw [dequeueLoop]
  split <;> rfl

/-- Helper: `dequeueUpToMaxBatchSize` on an in-memory sender whose
head item alone already violates the size limit removes that item from
the queue while writing nothing. -/
lemma dequeueUpToMax_overflow_head (v : Bytes) (rest : List Bytes)
    (cap : Nat) (h : v.length + 1 > maxSize) :
    ((mkMemSender (v :: rest) cap).dequeueUpToMaxBatchSize).2.queue.items
        = rest
    ∧ ((mkMemSender (v :: rest) cap).dequeueUpToMaxBatchSize).2.bufData
        = [] := by
  have h1 : (0 : Nat) < maxSize := by norm_num [maxSize]
  have h2 : v.length + 0 + 1 > maxSize := by omega
  simp only [LogzioSender.dequeueUpToMaxBatchSize, mkMemSender]
  rw [dequeueLoop_overflow v rest 0 [] h1 h2]
  exact ⟨rfl, rfl⟩

/-- Claim C2 counterexample: an item of `maxSize` bytes (so
`len(value)+1 > maxSize` with an empty batch) is dequeued by the
batcher and then discarded — after `dequeueUpToMaxBatchSize` the queue
is empty, so the item is not "still present at the head of the queue"
as the claim states. -/
theorem C2_counterexample_item_lost :
    ((mkMemSender [List.replicate maxSize 0]
        500).dequeueUpToMaxBatchSize).2.queue.items = []
    ∧ ¬ ((mkMemSender [List.replicate maxSize 0]
          500).dequeueUpToMaxBatchSize).2.queue.items.head?
          = some (List.replicate maxSize 0) := by
  have hlen : (List.replicate maxSize (0 : Nat)).length + 1 > maxSize := by
    rw [List.length_replicate]; omega
  have key := dequeueUpToMax_overflow_head (List.replicate maxSize 0) [] 500 hlen
  refine ⟨key.1, ?_⟩
  rw [key.1]
  simp

/-- Helper: a two-item batch where both items pass the loop's guard —
both are written to the buffer, each followed by a newline.  The guard
checks `len(value) + bufSize + 1 > maxSize`, but `bufSize` only
accumulates `len(value)` without the newline byte actually written. -/
lemma dequeueUpToMax_two_items (v1 v2 : Bytes) (cap : Nat)
    (g1 : ¬ v1.length + 0 + 1 > maxSize)
    (c1 : 0 + v1.length < maxSize)
    (g2 : ¬ v2.length + (0 + v1.length) + 1 > maxSize) :
    ((mkMemSender [v1, v2] cap).dequeueUpToMaxBatchSize).2.bufData
      = [] ++ v1 ++ [newline] ++ v2 ++ [newline] := by
  have h0 : (0 : Nat) < maxSize := by norm_num [maxSize]
  simp only [LogzioSender.dequeueUpToMaxBatchSize, mkMemSender]
  rw [dequeueLoop_step v1 [v2] 0 [] h0 g1,
    dequeueLoop_step v2 [] (0 + v1.length) ([] ++ v1 ++ [newline]) c1 g2,
    dequeueLoop_nil]

/-- Claim C1 (evaluation at the failing input): batching a queue of a
1-byte item followed by a `maxSize - 2`-byte item writes
`maxSize + 1` bytes to the buffer — more than the 3 MiB cap the claim
states.  Both items pass the guard (`bufSize` undercounts by the
newline of the first item), and the buffer receives payloads plus one
newline per item. -/
theorem C1_batch_buffer_overflow_eval :
    ((mkMemSender [[0], List.replicate (maxSize - 2) 0]
        500).dequeueUpToMaxBatchSize).2.bufData.length = maxSize + 1
    ∧ maxSize + 1 > 3 * 1024 * 1024 := by
  have hms : maxSize = 3145728 := rfl
  have hlen : (List.replicate (maxSize - 2) (0 : Nat)).length = maxSize - 2 :=
    List.length_replicate _ _
  have key := dequeueUpToMax_two_items [0] (List.replicate (maxSize - 2) 0) 500
    (by norm_num [maxSize]) (by norm_num [maxSize])
    (by rw [hlen, List.length_singleton]; omega)
  constructor
  · rw [key, List.length_append, List.length_append, List.length_append,
      List.length_append, List.length_replicate]
    simp only [List.length_nil, List.length_cons]
    omega
  · omega

/-- Claim C2 (amended): when the batching loop encounters an item whose
`len(value)+1` added to the bytes already counted would exceed
`maxSize`, it stops and writes no part of the item to the buffer — but
the item has already been dequeued, so it is discarded rather than left
in the queue for the next batch: the loop returns with the buffer
untouched and the queue holding only the items after it. -/
theorem C2_overflow_item_discarded (v : Bytes) (rest : List Bytes)
    (bufSize : Nat) (buf : Bytes) (h1 : bufSize < maxSize)
    (h2 : v.length + bufSize + 1 > maxSize) :
    dequeueLoop (v :: rest) bufSize buf = (bufSize, buf, rest) :=
  dequeueLoop_overflow v rest bufSize buf h1 h2

/-- Helper: a single-item batch whose item passes the guard — the item
is written to the buffer followed by a newline. -/
lemma dequeueUpToMax_one_item (v : Bytes) (cap : Nat)
    (g1 : ¬ v.length + 0 + 1 > maxSize) :
    ((mkMemSender [v] cap).dequeueUpToMaxBatchSize).2.bufData
      = [] ++ v ++ [newline] := by
  have h0 : (0 : Nat) < maxSize := by norm_num [maxSize]
  simp only [LogzioSender.dequeueUpToMaxBatchSize, mkMemSender]
  rw [dequeueLoop_step v [] 0 [] h0 g1, dequeueLoop_nil]

/-- Helper: when every attempt returns the transport-error sentinel,
the retry loop runs through all its remaining attempts, requeues the
buffer at the last one, and reports `reDrain = false` with exactly
`remaining` attempts performed. -/
lemma retryAttempts_httpError (probe : ProbeResult) :
    ∀ (remaining attempt : Nat) (l : LogzioSender),
      1 ≤ remaining → attempt + remaining = sendRetries →
      retryAttempts (fun _ => httpError) probe remaining attempt l
        = (l.requeue probe, false, remaining) := by
  intro remaining
  induction remaining with
  | zero => intro attempt l h _; exact absurd h (by norm_num)
  | succ n ih =>
    intro attempt l _ hsum
    have hse : makeHttpRequestEffect l httpError = l := by
      simp [makeHttpRequestEffect, httpError]
    have hsr : shouldRetry httpError = true := by decide
    rcases Nat.eq_zero_or_pos n with hn | hn
    · subst hn
      have ha : attempt = sendRetries - 1 := by
        simp only [sendRetries] at hsum ⊢; omega
      simp [retryAttempts, hse, hsr, ha]
    · have hne : ¬ attempt = sendRetries - 1 := by
        simp only [sendRetries] at hsum ⊢; omega
      have hrec := ih (attempt + 1) l (by omega) (by omega)
      simp [retryAttempts, hse, hsr, hne, hrec]

/-- Helper: one pass of the drain outer loop on a single-item queue
whose item fits in a batch, against always-failing transport: the item
is batched as `value ++ "\n"`, all attempts fail, the buffer is
requeued as one item and the loop stops. -/
lemma drainLoop_fail_once (probe : ProbeResult) (f batch : Nat) (w : Bytes)
    (l : LogzioSender) (hq : l.queue = ⟨[w]⟩) (hbuf : l.bufData = [])
    (himq : l.inMemoryQueue = true)
    (hcap : l.inMemoryCapacity = defaultQueueMaxLength)
    (hw : 0 < w.length) (hm : w.length + 1 ≤ maxSize) :
    drainLoop (fun _ _ => httpError) probe (f + 1) batch l
      = { l with queue := ⟨[w ++ [newline]]⟩, bufData := w ++ [newline] } := by
  have hL : 0 < l.queue.Length := by
    rw [hq]; simpa [MemQueue.Length] using hw
  have hdq : l.dequeueUpToMaxBatchSize
      = (w.length, { l with bufData := w ++ [newline], queue := ⟨[]⟩ }) := by
    simp only [LogzioSender.dequeueUpToMaxBatchSize]
    rw [hq, hbuf]
    rw [dequeueLoop_step w [] 0 [] (by norm_num [maxSize]) (by omega),
      dequeueLoop_nil]
    simp
  have hretry := retryAttempts_httpError probe sendRetries 0
    { l with bufData := w ++ [newline], queue := ⟨[]⟩ }
    (by norm_num [sendRetries]) (by norm_num [sendRetries])
  have hreq :
      ({ l with bufData := w ++ [newline], queue := ⟨[]⟩ } :
          LogzioSender).requeue probe
      = { l with queue := ⟨[w ++ [newline]]⟩, bufData := w ++ [newline] } := by
    have hcapn : ¬ l.inMemoryCapacity ≤ MemQueue.Length ⟨[]⟩ + (w.length + 1) := by
      rw [hcap]
      have h2 : maxSize = 3145728 := rfl
      have h3 : defaultQueueMaxLength = 9437184 := rfl
      simp only [MemQueue.Length, List.map_nil, List.sum_nil]
      omega
    simp [LogzioSender.requeue, LogzioSender.Send, LogzioSender.isEnoughMemory,
      himq, hcapn, MemQueue.Enqueue]
  simp only [drainLoop, hL, if_pos, hdq]
  rw [if_pos hw]
  simp only [hretry, hreq]
  simp

/-- Helper: iterating whole `Drain` passes against always-failing
transport on a single-item queue wraps the item in one more trailing
newline per pass. -/
lemma drainIterate_fail :
    ∀ (k : Nat) (w : Bytes) (l : LogzioSender),
      l.queue = ⟨[w]⟩ → l.inMemoryQueue = true →
      l.inMemoryCapacity = defaultQueueMaxLength → 0 < w.length →
      w.length + k ≤ maxSize →
      (drainIterate k l).queue.items = [w ++ List.replicate k newline] := by
  intro k
  induction k with
  | zero => intro w l hq _ _ _ _; simp [drainIterate, hq]
  | succ n ih =>
    intro w l hq himq hcap hw hk
    simp only [drainIterate]
    have hdrain : l.Drain (fun _ _ => httpError) .under
        = { l with queue := ⟨[w ++ [newline]]⟩, bufData := w ++ [newline] } := by
      unfold LogzioSender.Drain
      rw [hq]
      exact drainLoop_fail_once .under _ 0 w
        { l with queue := ⟨[w]⟩, bufData := [] } rfl rfl himq hcap hw (by omega)
    rw [hdrain]
    have hrec := ih (w ++ [newline])
      { l with queue := ⟨[w ++ [newline]]⟩, bufData := w ++ [newline] }
      rfl himq hcap (by simp)
      (by simp only [List.length_append, List.length_cons, List.length_nil]; omega)
    rw [hrec]
    simp [List.append_assoc, List.replicate_succ, List.singleton_append]

/-- Claim C9: each failed delivery round appends one extra trailing
newline to a payload on the wire — `requeue` stores the batch bytes
including the final `'\n'` as the new item's value, and batching that
item appends another `'\n'`.  After `k` failed drains of a payload `P`,
the queue holds the single item `P ++ k newlines`, and the next batch
posts `P ++ (k+1)` newlines rather than `P` followed by one newline. -/
theorem C9_requeue_extra_newlines (k : Nat) (P : Bytes) (h0 : 0 < P.length)
    (hk : P.length + k + 1 ≤ maxSize) :
    (drainIterate k (mkMemSender [P] defaultQueueMaxLength)).queue.items
        = [P ++ List.replicate k newline]
    ∧ ((mkMemSender [P ++ List.replicate k newline]
          defaultQueueMaxLength).dequeueUpToMaxBatchSize).2.bufData
        = P ++ List.replicate (k + 1) newline := by
  constructor
  · exact drainIterate_fail k P (mkMemSender [P] defaultQueueMaxLength)
      rfl rfl rfl h0 (by omega)
  · have g1 : ¬ (P ++ List.replicate k newline).length + 0 + 1 > maxSize := by
      simp only [List.length_append, List.length_replicate]
      omega
    rw [dequeueUpToMax_one_item (P ++ List.replicate k newline)
      defaultQueueMaxLength g1]
    simp [List.append_assoc, List.replicate_succ']

/-- Claim C9 witness: the payload `"blah"` after two failed drain
rounds sits in the queue as `"blah\n\n"`, and the next batching writes
`"blah\n\n\n"` to the buffer. -/
theorem C9_requeue_extra_newlines_witness :
    0 < ([98, 108, 97, 104] : Bytes).length
    ∧ ([98, 108, 97, 104] : Bytes).length + 2 + 1 ≤ maxSize
    ∧ (drainIterate 2
          (mkMemSender [[98, 108, 97, 104]] defaultQueueMaxLength)).queue.items
        = [[98, 108, 97, 104] ++ List.replicate 2 newline]
    ∧ ((mkMemSender [[98, 108, 97, 104] ++ List.replicate 2 newline]
          defaultQueueMaxLength).dequeueUpToMaxBatchSize).2.bufData
        = [98, 108, 97, 104] ++ List.replicate (2 + 1) newline :=
  ⟨by decide, by decide,
   (C9_requeue_extra_newlines 2 [98, 108, 97, 104] (by decide) (by decide)).1,
   (C9_requeue_extra_newlines 2 [98, 108, 97, 104] (by decide) (by decide)).2⟩

/-- Claim C2 witness: the overflow branch taken at a concrete state —
a 2-byte item against a batch already holding `maxSize - 1` counted
bytes. -/
theorem C2_overflow_item_discarded_witness :
    maxSize - 1 < maxSize
    ∧ [0, 0].length + (maxSize - 1) + 1 > maxSize
    ∧ dequeueLoop [[0, 0]] (maxSize - 1) [] = (maxSize - 1, [], []) :=
  ⟨by decide, by decide,
   C2_overflow_item_discarded [0, 0] [] (maxSize - 1) [] (by decide)
     (by decide)⟩

end Logzio
